import Mathlib

/-!
Verification of the contract-interaction layer (`web3/contract/async_contract.py`)
against its natural-language specification.

The embedding translates the source file's classes and methods into explicit
Lean definitions.  External collaborators (ABI codec, transport, hasher,
address normalizer) are taken as function parameters, matching the spec's
"specified only by the interface this core consumes" boundary.  Helper methods
that live in `web3.contract.base_contract` / `web3.contract.utils` (which are
not part of the source tree) are modelled from the specification text; each
such definition says so in its doc comment.

Effects (RPC round trips, external resolver invocations) are made observable
by returning an explicit `List Effect` trace alongside each method's result.
-/

/-! ## Data model: ABI entries, values, errors -/

/-- One parameter descriptor of an ABI entry: name, canonical type string,
and the indexed flag (meaningful for events only).  Mirrors the parsed ABI
input/output dictionaries consumed by `async_contract.py`. -/
structure AbiParam where
  name : String
  type : String
  indexed : Bool := false
deriving DecidableEq

/-- One ABI entry: its kind tag (`"function"`, `"event"`, `"constructor"`, ...),
name, ordered input descriptors and ordered output descriptors. -/
structure AbiEntry where
  type : String
  name : String
  inputs : List AbiParam := []
  outputs : List AbiParam := []
deriving DecidableEq

/-- Abstract argument/decoded values handled by the ABI codec.  The codec
itself is external; this type only gives concrete inhabitants to quantify and
evaluate over. -/
inductive Value
  | int (n : Int)
  | str (s : String)
  | addr (a : String)
  | bytes (bs : List Nat)
  | bool (b : Bool)
deriving DecidableEq

/-- Resolution failures of the identifier resolver (spec section 4.1 and the
error taxonomy of section 7): each carries the attempted name, and the
ambiguous case carries the surviving candidate signatures. -/
inductive ResolveError
  | notFound (name : String)
  | noMatchingOverload (name : String)
  | ambiguousOverload (name : String) (sigs : List String)
deriving DecidableEq

/-- Errors raised by the contract layer itself (spec section 7 taxonomy). -/
inductive W3Error
  | notInitialized
  | missingAddress
  | noBytecode
  | invalidFilterParams
  | logDecodeError (event : String)
  | notResolved
  | conflictingTxParams
deriving DecidableEq

deriving instance DecidableEq for Except

/-- Canonical signature string of an ABI entry: name followed by the
comma-separated parameter types in parentheses. -/
def signature (e : AbiEntry) : String :=
  e.name ++ "(" ++ String.intercalate "," (e.inputs.map (fun p => p.type)) ++ ")"

/-! ## Identifier resolver (spec section 4.1) -/

/-- The entries of the ABI that are functions with the given name: the
candidate set of name-based resolution. -/
def funcCandidates (entries : List AbiEntry) (name : String) : List AbiEntry :=
  entries.filter (fun e => e.type == "function" && e.name == name)

/-- Whether an entry's inputs are compatible with the supplied positional
arguments: arity equal and every value encodable at the paired type.  The
"can this value be encoded as this type" check is the external ABI codec's,
passed in as `canEncode`. -/
def matchesArgs (canEncode : String → Value → Bool) (args : List Value)
    (e : AbiEntry) : Bool :=
  e.inputs.length == args.length &&
    ((e.inputs.map (fun p => p.type)).zip args).all (fun tv => canEncode tv.1 tv.2)

/-- The argument-compatible survivors among an overloaded name's candidates. -/
def survivors (entries : List AbiEntry) (name : String) (args : List Value)
    (canEncode : String → Value → Bool) : List AbiEntry :=
  (funcCandidates entries name).filter (matchesArgs canEncode args)

/-- Modelled from the spec: the name branch of the identifier resolver
(`find_functions_by_identifier` / `get_function_by_identifier` in
`web3.contract.utils` and `BaseContractFunction._set_function_info`, none of
which are in the source tree).  Per section 4.1: collect the entries sharing
the name (`NotFound` if none); a single candidate is returned unchecked; with
several candidates, filter by arity and codec type-compatibility, requiring
exactly one survivor (`NoMatchingOverload` for zero, `AmbiguousOverload`
naming the surviving signatures for more than one). -/
def resolveFunction (entries : List AbiEntry) (name : String) (args : List Value)
    (canEncode : String → Value → Bool) : Except ResolveError AbiEntry :=
  match funcCandidates entries name with
  | [] => .error (.notFound name)
  | [e] => .ok e
  | _ :: _ :: _ =>
    match survivors entries name args canEncode with
    | [] => .error (.noMatchingOverload name)
    | [e] => .ok e
    | es => .error (.ambiguousOverload name (es.map signature))

/-! ## Concrete example fixtures (used by witnesses and counterexamples) -/

/-- `transfer(address,uint256)` with a single `bool` output. -/
def exEntry2 : AbiEntry :=
  { type := "function", name := "transfer",
    inputs := [ { name := "to", type := "address" },
                { name := "amount", type := "uint256" } ],
    outputs := [ { name := "ok", type := "bool" } ] }

/-- `transfer(address,uint256,bytes)` with a single `uint256` output. -/
def exEntry3 : AbiEntry :=
  { type := "function", name := "transfer",
    inputs := [ { name := "to", type := "address" },
                { name := "amount", type := "uint256" },
                { name := "data", type := "bytes" } ],
    outputs := [ { name := "spent", type := "uint256" } ] }

/-- A small contract ABI with an overloaded `transfer`. -/
def exAbi : List AbiEntry := [exEntry2, exEntry3]

/-- A concrete stand-in for the codec's encodability check. -/
def exCanEncode : String → Value → Bool
  | "address", .addr _ => true
  | "uint256", .int _ => true
  | "bytes", .bytes _ => true
  | "bool", .bool _ => true
  | _, _ => false

/-- Claim C1: for an overloaded function name, resolution against a supplied
argument list returns the unique arity- and type-compatible candidate when
exactly one exists, fails with `NoMatchingOverload` when zero candidates are
compatible, and fails with `AmbiguousOverload` naming the candidate signatures
when more than one is. -/
theorem overload_resolution_correct
    (entries : List AbiEntry) (name : String) (args : List Value)
    (canEncode : String → Value → Bool)
    (hov : 1 < (funcCandidates entries name).length) :
    (survivors entries name args canEncode = [] →
      resolveFunction entries name args canEncode
        = .error (.noMatchingOverload name))
    ∧ (∀ e, survivors entries name args canEncode = [e] →
      resolveFunction entries name args canEncode = .ok e)
    ∧ (1 < (survivors entries name args canEncode).length →
      resolveFunction entries name args canEncode
        = .error (.ambiguousOverload name
            ((survivors entries name args canEncode).map signature))) := by
  rcases hc : funcCandidates entries name with _ | ⟨a, _ | ⟨b, t⟩⟩
  · rw [hc] at hov; simp at hov
  · rw [hc] at hov; simp at hov
  · refine ⟨?_, ?_, ?_⟩
    · intro hs
      simp only [resolveFunction, hc, hs]
    · intro e hs
      simp only [resolveFunction, hc, hs]
    · intro hs
      rcases hv : survivors entries name args canEncode with _ | ⟨x, _ | ⟨y, u⟩⟩
      · rw [hv] at hs; simp at hs
      · rw [hv] at hs; simp at hs
      · simp only [resolveFunction, hc, hv]

/-- Witness for C1 at the spec's own scenario: `transfer` is overloaded; with
`(addr, 5)` exactly the two-argument form survives and is returned. -/
theorem overload_resolution_correct_witness :
    1 < (funcCandidates exAbi "transfer").length
    ∧ resolveFunction exAbi "transfer" [.addr "0xB", .int 5] exCanEncode
        = .ok exEntry2 :=
  ⟨by decide,
   (overload_resolution_correct exAbi "transfer" [.addr "0xB", .int 5]
      exCanEncode (by decide)).2.1 exEntry2 (by decide)⟩

/-! ## Function proxy (`AsyncContractFunction`) and argument binding -/

/-- The function proxy's state: contract handle data (address, full contract
ABI), the function name, and the bound state (positional args, keyword args,
resolved ABI entry).  Unbound proxies have empty args and `abi = none`. -/
structure AsyncContractFunction where
  address : String
  contract_abi : List AbiEntry
  fn_name : String
  args : List Value := []
  kwargs : List (String × Value) := []
  abi : Option AbiEntry := none
deriving DecidableEq

/-- Modelled from the spec: `BaseContractFunction._set_function_info` is in
`web3.contract.base_contract`, which is not in the source tree.  Per sections
4.1 and 4.2 it resolves the proxy's function name against the contract ABI
and the currently bound arguments and stores the resolved entry. -/
def AsyncContractFunction.set_function_info (canEncode : String → Value → Bool)
    (p : AsyncContractFunction) : AsyncContractFunction :=
  { p with abi := (resolveFunction p.contract_abi p.fn_name p.args canEncode).toOption }

/-- `AsyncContractFunction.__call__`, body as written in the source: copy the
proxy, set `args` (falling back to the empty tuple when the pack is `None`),
set `kwargs` (falling back to the empty dict), then re-run
`_set_function_info` on the clone.  The `Option` parameters reproduce the
source's `None`-fallback branches. -/
def AsyncContractFunction.dundercall (canEncode : String → Value → Bool)
    (p : AsyncContractFunction) (args : Option (List Value))
    (kwargs : Option (List (String × Value))) : AsyncContractFunction :=
  let clone := p
  let clone := { clone with args := match args with | none => [] | some a => a }
  let clone := { clone with kwargs := match kwargs with | none => [] | some k => k }
  AsyncContractFunction.set_function_info canEncode clone

/-- Invoking a proxy through Python's calling convention: the varargs pack is
always a tuple and the keyword pack always a dict, so `__call__` receives
`some` in both positions. -/
def AsyncContractFunction.invoke (canEncode : String → Value → Bool)
    (p : AsyncContractFunction) (args : List Value)
    (kwargs : List (String × Value)) : AsyncContractFunction :=
  AsyncContractFunction.dundercall canEncode p (some args) (some kwargs)

/-- An object store of proxies, modelling Python object identity: invoking a
proxy allocates the clone at a fresh index and leaves every existing object
untouched.  `copy.copy` in `__call__` is exactly this allocation. -/
def storeInvoke (canEncode : String → Value → Bool)
    (s : List AsyncContractFunction) (pid : Nat) (args : List Value)
    (kwargs : List (String × Value)) : List AsyncContractFunction × Nat :=
  match s[pid]? with
  | none => (s, s.length)
  | some p => (s ++ [AsyncContractFunction.invoke canEncode p args kwargs], s.length)

/-- Claim C2: invoking a proxy with new arguments returns a distinct bound
proxy and leaves every field of the original unchanged — re-invocation is
clone-then-set, never in-place mutation. -/
theorem invoke_never_mutates
    (canEncode : String → Value → Bool) (s : List AsyncContractFunction)
    (pid : Nat) (args : List Value) (kwargs : List (String × Value))
    (p : AsyncContractFunction) (hp : s[pid]? = some p) :
    (storeInvoke canEncode s pid args kwargs).2 ≠ pid
    ∧ (storeInvoke canEncode s pid args kwargs).1[pid]? = s[pid]?
    ∧ (storeInvoke canEncode s pid args kwargs).1[(storeInvoke canEncode s pid args kwargs).2]?
        = some (AsyncContractFunction.invoke canEncode p args kwargs)
    ∧ (storeInvoke canEncode s pid args kwargs).1.length = s.length + 1 := by
  have hlt : pid < s.length := by
    rcases List.getElem?_eq_some.mp hp with ⟨h, _⟩
    exact h
  refine ⟨?_, ?_, ?_, ?_⟩
  · simp only [storeInvoke, hp]
    omega
  · simp only [storeInvoke, hp]
    simp only [List.getElem?_append, hlt, if_pos]
    exact hp
  · simp only [storeInvoke, hp]
    simp
  · simp only [storeInvoke, hp]
    simp

/-- An unbound example proxy over the example ABI. -/
def exUnbound : AsyncContractFunction :=
  { address := "0xA", contract_abi := exAbi, fn_name := "transfer" }

/-- Witness for C2: invoking the stored proxy at index 0 allocates the bound
clone at index 1 and index 0 still holds the original. -/
theorem invoke_never_mutates_witness :
    ([exUnbound][0]? = some exUnbound)
    ∧ ((storeInvoke exCanEncode [exUnbound] 0 [.addr "0xB", .int 5] []).2 ≠ 0
      ∧ (storeInvoke exCanEncode [exUnbound] 0 [.addr "0xB", .int 5] []).1[0]?
          = [exUnbound][0]?
      ∧ (storeInvoke exCanEncode [exUnbound] 0 [.addr "0xB", .int 5] []).1[
          (storeInvoke exCanEncode [exUnbound] 0 [.addr "0xB", .int 5] []).2]?
          = some (AsyncContractFunction.invoke exCanEncode exUnbound
              [.addr "0xB", .int 5] [])
      ∧ (storeInvoke exCanEncode [exUnbound] 0 [.addr "0xB", .int 5] []).1.length
          = 1 + 1) :=
  ⟨by decide,
   invoke_never_mutates exCanEncode [exUnbound] 0 [.addr "0xB", .int 5] []
     exUnbound (by decide)⟩

/-- Claim C10: through the calling convention the bound clone's positional
arguments are exactly the supplied tuple and its keyword arguments exactly the
supplied mapping, and the `None`-fallback branches of `__call__` are dead:
invocation equals directly setting both fields on the clone. -/
theorem invoke_binds_exact_args
    (canEncode : String → Value → Bool) (p : AsyncContractFunction)
    (args : List Value) (kwargs : List (String × Value)) :
    (AsyncContractFunction.invoke canEncode p args kwargs).args = args
    ∧ (AsyncContractFunction.invoke canEncode p args kwargs).kwargs = kwargs
    ∧ AsyncContractFunction.invoke canEncode p args kwargs
        = AsyncContractFunction.set_function_info canEncode
            { p with args := args, kwargs := kwargs } :=
  ⟨rfl, rfl, rfl⟩

/-- Claim C6 (amended): every proxy produced by invocation carries the ABI
entry freshly resolved from the contract ABI, the function name and the newly
bound arguments — rebinding always re-resolves, so the carried entry is never
stale with respect to the bound arguments. -/
theorem invoke_resolves_freshly
    (canEncode : String → Value → Bool) (p : AsyncContractFunction)
    (args : List Value) (kwargs : List (String × Value)) :
    (AsyncContractFunction.invoke canEncode p args kwargs).abi
      = (resolveFunction p.contract_abi p.fn_name args canEncode).toOption :=
  rfl

/-! ## Block identifiers, transaction parameters, observable effects -/

/-- A block reference: a number, one of the symbolic tags, or a block hash
(spec section 6). -/
inductive BlockId
  | number (n : Nat)
  | latest
  | earliest
  | pending
  | safe
  | finalized
  | hash (h : String)
deriving DecidableEq

/-- Transaction parameters with the recognized keys of spec section 3;
every field optional, absent by default. -/
structure TxParams where
  «to» : Option String := none
  sender : Option String := none
  value : Option Nat := none
  gas : Option Nat := none
  gasPrice : Option Nat := none
  data : Option String := none
  nonce : Option Nat := none
deriving DecidableEq

/-- Event filter parameters sent to the node: address, ordered topics
(`none` is the match-any wildcard), and either a block range or a block hash. -/
structure FilterParams where
  address : Option String := none
  topics : List (Option String) := []
  fromBlock : Option BlockId := none
  toBlock : Option BlockId := none
  blockHash : Option String := none
deriving DecidableEq

/-- Observable interactions with the outside world, in program order:
RPC round trips and invocations of the external resolvers.  Identifier
resolution is its own effect kind so that where (and whether) resolution
runs is visible in each method's trace. -/
inductive Effect
  | rpcEthCall (tx : TxParams) (block : BlockId)
  | rpcSendTransaction (tx : TxParams)
  | rpcEstimateGas (tx : TxParams) (block : Option BlockId)
  | rpcGetLogs (params : FilterParams)
  | rpcNewFilter (params : FilterParams)
  | resolveBlockId (block : BlockId)
  | resolveIdentifier (name : String)
deriving DecidableEq

/-- Whether an effect is the historical-log RPC request. -/
def Effect.isGetLogs : Effect → Bool
  | .rpcGetLogs _ => true
  | _ => false

/-- Whether an effect installs a node-side filter. -/
def Effect.isNewFilter : Effect → Bool
  | .rpcNewFilter _ => true
  | _ => false

/-- Whether an effect is an invocation of the identifier resolver. -/
def Effect.isResolveIdentifier : Effect → Bool
  | .resolveIdentifier _ => true
  | _ => false

/-- Modelled from the spec: `BaseContractFunction._get_call_txparams`,
`_transact`, `_estimate_gas` and `_build_transaction` live in
`web3.contract.base_contract`, which is not in the source tree.  Per section 3
(Transaction Parameters), the caller-supplied mapping is merged with the
contract-derived defaults `to` = contract address and `data` = encoded call
data, and caller-supplied `to`/`data` are rejected as conflicting. -/
def prep_txparams (encoded : String) (p : AsyncContractFunction)
    (transaction : Option TxParams) : Except W3Error TxParams :=
  let t := transaction.getD {}
  if t.«to».isSome || t.data.isSome then .error .conflictingTxParams
  else .ok { t with «to» := some p.address, data := some encoded }

/-! ## Dispatch methods of `AsyncContractFunction` (source lines 246-342) -/

/-- `AsyncContractFunction.call`: prepare the call transaction, resolve the
(symbolic) block identifier through the external resolver
(`async_parse_block_identifier`), issue the read-only RPC request
(`async_call_contract_function`), and decode its payload per the resolved
entry's output types.  `block_identifier` defaults to `latest` as in the
source.  External collaborators: `parseBlock` (block-identifier resolver),
`node` (transport), `decodeOut` (codec output decoder), `enc` (codec call-data
encoder). -/
def AsyncContractFunction.call
    (parseBlock : BlockId → BlockId)
    (node : TxParams → BlockId → String)
    (decodeOut : List String → String → List Value)
    (enc : AbiEntry → List Value → String)
    (p : AsyncContractFunction)
    (transaction : Option TxParams)
    (block_identifier : BlockId := BlockId.latest) :
    Except W3Error (List Value) × List Effect :=
  match p.abi with
  | none => (.error .notResolved, [])
  | some fa =>
    match prep_txparams (enc fa p.args) p transaction with
    | .error e => (.error e, [])
    | .ok ct =>
      let bid := parseBlock block_identifier
      (.ok (decodeOut (fa.outputs.map (fun o => o.type)) (node ct bid)),
       [.resolveBlockId block_identifier, .rpcEthCall ct bid])

/-- `AsyncContractFunction.transact`: prepare the transaction, submit it via
the state-changing RPC method, return the transaction hash. -/
def AsyncContractFunction.transact
    (node : TxParams → String)
    (enc : AbiEntry → List Value → String)
    (p : AsyncContractFunction)
    (transaction : Option TxParams) :
    Except W3Error String × List Effect :=
  match p.abi with
  | none => (.error .notResolved, [])
  | some fa =>
    match prep_txparams (enc fa p.args) p transaction with
    | .error e => (.error e, [])
    | .ok st => (.ok (node st), [.rpcSendTransaction st])

/-- `AsyncContractFunction.estimate_gas`: same encoding path as `transact`
but invokes the gas-estimation RPC method with an optional block identifier
and returns the integer gas quantity. -/
def AsyncContractFunction.estimate_gas
    (node : TxParams → Option BlockId → Nat)
    (enc : AbiEntry → List Value → String)
    (p : AsyncContractFunction)
    (transaction : Option TxParams)
    (block_identifier : Option BlockId := none) :
    Except W3Error Nat × List Effect :=
  match p.abi with
  | none => (.error .notResolved, [])
  | some fa =>
    match prep_txparams (enc fa p.args) p transaction with
    | .error e => (.error e, [])
    | .ok st => (.ok (node st block_identifier),
                 [.rpcEstimateGas st block_identifier])

/-- `AsyncContractFunction.build_transaction`: encode the call data, merge
transaction defaults via the external transaction-defaulting collaborator
(`async_fill_transaction_defaults`), and return the built transaction without
submitting it. -/
def AsyncContractFunction.build_transaction
    (fillDefaults : TxParams → TxParams)
    (enc : AbiEntry → List Value → String)
    (p : AsyncContractFunction)
    (transaction : Option TxParams) :
    Except W3Error TxParams × List Effect :=
  match p.abi with
  | none => (.error .notResolved, [])
  | some fa =>
    match prep_txparams (enc fa p.args) p transaction with
    | .error e => (.error e, [])
    | .ok bt => (.ok (fillDefaults bt), [])

/-- Claim C7: on a bound proxy, `call` with no explicit block identifier uses
`latest`, resolves the symbolic block identifier through the external
resolver before the read-only RPC request is issued (the resolver invocation
precedes the RPC in the trace, and the RPC carries the resolved reference),
and the returned value is decoded from the RPC response per the resolved
entry's output types. -/
theorem call_uses_latest_and_decodes
    (parseBlock : BlockId → BlockId) (node : TxParams → BlockId → String)
    (decodeOut : List String → String → List Value)
    (enc : AbiEntry → List Value → String)
    (p : AsyncContractFunction) (transaction : Option TxParams)
    (fa : AbiEntry) (ct : TxParams)
    (habi : p.abi = some fa)
    (htx : prep_txparams (enc fa p.args) p transaction = .ok ct) :
    AsyncContractFunction.call parseBlock node decodeOut enc p transaction
      = (.ok (decodeOut (fa.outputs.map (fun o => o.type))
                (node ct (parseBlock BlockId.latest))),
         [.resolveBlockId BlockId.latest,
          .rpcEthCall ct (parseBlock BlockId.latest)]) := by
  simp only [AsyncContractFunction.call, habi, htx]

/-- A bound example proxy: `exUnbound` invoked with `(addr, 5)`. -/
def exProxy : AsyncContractFunction :=
  AsyncContractFunction.invoke exCanEncode exUnbound [.addr "0xB", .int 5] []

/-- A concrete stand-in for the codec's call-data encoder. -/
def exEnc : AbiEntry → List Value → String :=
  fun fa _ => signature fa

/-- A concrete stand-in for the external block-identifier resolver. -/
def exParseBlock : BlockId → BlockId :=
  fun b => match b with
  | .latest => .number 7
  | b => b

/-- A concrete stand-in for the transport's read-call method. -/
def exNode : TxParams → BlockId → String :=
  fun _ _ => "0x01"

/-- A concrete stand-in for the codec's output decoder: records the output
types it was asked to decode with. -/
def exDecodeOut : List String → String → List Value :=
  fun tys raw => .str raw :: tys.map .str

/-- The transaction `call` sends for `exProxy` with no overrides. -/
def exCt : TxParams :=
  { «to» := some "0xA", data := some "transfer(address,uint256)" }

/-- Witness for C7 at the bound example proxy with no caller transaction:
the trace resolves `latest` first and the decoded result uses the
two-argument entry's output types. -/
theorem call_uses_latest_and_decodes_witness :
    exProxy.abi = some exEntry2
    ∧ prep_txparams (exEnc exEntry2 exProxy.args) exProxy none = .ok exCt
    ∧ AsyncContractFunction.call exParseBlock exNode exDecodeOut exEnc exProxy none
        = (.ok (exDecodeOut (exEntry2.outputs.map (fun o => o.type))
                  (exNode exCt (exParseBlock BlockId.latest))),
           [.resolveBlockId BlockId.latest,
            .rpcEthCall exCt (exParseBlock BlockId.latest)]) :=
  ⟨by decide, by decide,
   call_uses_latest_and_decodes exParseBlock exNode exDecodeOut exEnc exProxy
     none exEntry2 exCt (by decide) (by decide)⟩

/-- A proxy whose stored entry was set to the three-argument overload by hand,
deliberately inconsistent with its two bound arguments.  No proxy produced by
invocation looks like this; it isolates what dispatch itself does. -/
def exStaleProxy : AsyncContractFunction :=
  { address := "0xA", contract_abi := exAbi, fn_name := "transfer",
    args := [.addr "0xB", .int 5], abi := some exEntry3 }

/-- A concrete stand-in for the transport's send-transaction method. -/
def exNodeTx : TxParams → String :=
  fun _ => "0xhash"

/-- A concrete stand-in for the transport's gas-estimation method. -/
def exNodeGas : TxParams → Option BlockId → Nat :=
  fun _ _ => 21000

/-- A concrete stand-in for the external transaction-defaulting collaborator. -/
def exFill : TxParams → TxParams :=
  fun t => { t with gas := some 30000, nonce := some 0 }

/-- Counterexample to claim C6 as stated: identifier resolution is NOT re-run
on the dispatch methods.  At a concrete bound proxy, each of `call`,
`transact`, `estimate_gas` and `build_transaction` produces a trace containing
zero resolver invocations, and dispatching a proxy whose stored entry
disagrees with its bound arguments uses the stored entry (the three-argument
overload's output types) rather than the entry the resolver would pick for
those arguments. -/
theorem dispatch_never_resolves_counterexample :
    ((AsyncContractFunction.call exParseBlock exNode exDecodeOut exEnc
        exStaleProxy none).2.countP Effect.isResolveIdentifier = 0
      ∧ (AsyncContractFunction.call exParseBlock exNode exDecodeOut exEnc
          exStaleProxy none).2.length = 2)
    ∧ (AsyncContractFunction.call exParseBlock exNode exDecodeOut exEnc
        exStaleProxy none).1
        = .ok (exDecodeOut (exEntry3.outputs.map (fun o => o.type))
            (exNode { «to» := some "0xA", data := some (signature exEntry3) }
              (exParseBlock BlockId.latest)))
    ∧ exStaleProxy.abi
        ≠ (resolveFunction exStaleProxy.contract_abi exStaleProxy.fn_name
            exStaleProxy.args exCanEncode).toOption
    ∧ (AsyncContractFunction.transact exNodeTx exEnc exProxy none).2.countP
        Effect.isResolveIdentifier = 0
    ∧ (AsyncContractFunction.transact exNodeTx exEnc exProxy none).2.length = 1
    ∧ (AsyncContractFunction.estimate_gas exNodeGas exEnc exProxy none).2.countP
        Effect.isResolveIdentifier = 0
    ∧ (AsyncContractFunction.estimate_gas exNodeGas exEnc exProxy none).2.length = 1
    ∧ (AsyncContractFunction.build_transaction exFill exEnc exProxy none).2.countP
        Effect.isResolveIdentifier = 0 := by
  decide

/-! ## Log entries, decoded events, and the log decoder (spec section 4.4) -/

/-- A raw log entry as returned by the node (spec section 6). -/
structure LogEntry where
  address : String
  topics : List String
  data : String
  blockNumber : Nat
  blockHash : String
  transactionHash : String
  logIndex : Nat
deriving DecidableEq

/-- A decoded event: the event name, the named argument mapping, and the
metadata fields copied through from the raw log. -/
structure EventData where
  event : String
  args : List (String × Value)
  address : String
  blockNumber : Nat
  blockHash : String
  transactionHash : String
  logIndex : Nat
deriving DecidableEq

/-- Interleave the decoded indexed values and the decoded data values back
into the event's original parameter declaration order, keyed by name. -/
def mergeArgs : List AbiParam → List Value → List Value → List (String × Value)
  | [], _, _ => []
  | p :: ps, ia, da =>
    if p.indexed then
      match ia with
      | v :: ia2 => (p.name, v) :: mergeArgs ps ia2 da
      | [] => []
    else
      match da with
      | v :: da2 => (p.name, v) :: mergeArgs ps ia da2
      | [] => []

/-- Modelled from the spec: `get_event_data` lives in `web3._utils.events`,
which is not in the source tree.  Per section 4.4 the decoder matches
`topics[1..]` positionally to the indexed parameters (topic 0 is the
selector), matches `data` to the non-indexed parameters via the ABI codec,
produces a record keyed by parameter name plus the copied-through metadata,
and fails with `LogDecodeError` naming the event on a topic-count mismatch or
undecodable payload.  `decodeTopic`/`decodeData` are the external codec. -/
def get_event_data (decodeTopic : String → String → Option Value)
    (decodeData : List String → String → Option (List Value))
    (abi : AbiEntry) (lg : LogEntry) : Except W3Error EventData :=
  let indexed := abi.inputs.filter (fun p => p.indexed)
  let nonIndexed := abi.inputs.filter (fun p => !p.indexed)
  if lg.topics.length ≠ indexed.length + 1 then .error (.logDecodeError abi.name)
  else
    match ((indexed.map (fun p => p.type)).zip lg.topics.tail).mapM
        (fun tv => decodeTopic tv.1 tv.2) with
    | none => .error (.logDecodeError abi.name)
    | some ivals =>
      match decodeData (nonIndexed.map (fun p => p.type)) lg.data with
      | none => .error (.logDecodeError abi.name)
      | some dvals =>
        if dvals.length ≠ nonIndexed.length then .error (.logDecodeError abi.name)
        else .ok { event := abi.name,
                   args := mergeArgs abi.inputs ivals dvals,
                   address := lg.address,
                   blockNumber := lg.blockNumber,
                   blockHash := lg.blockHash,
                   transactionHash := lg.transactionHash,
                   logIndex := lg.logIndex }

/-! ## Event filter construction (spec section 4.3) -/

/-- The topic list of an event filter: topic 0 is the event's selector topic
(computed by the external hasher), then one topic per indexed parameter —
encoded through the codec when `argFilters` supplies a value for that
parameter's name, the `none` wildcard otherwise.  Non-indexed parameters
never produce topics. -/
def buildTopics (encodeTopic : String → Value → String) (selectorTopic : String)
    (abi : AbiEntry) (argFilters : List (String × Value)) : List (Option String) :=
  some selectorTopic ::
    (abi.inputs.filter (fun p => p.indexed)).map (fun p =>
      match argFilters.lookup p.name with
      | some v => some (encodeTopic p.type v)
      | none => none)

/-- Modelled from the spec: `BaseContractEvent._get_event_filter_params` is in
`web3.contract.base_contract`, which is not in the source tree.  Per section
4.3 it builds the address/topics/range filter params, and `blockHash` is
mutually exclusive with `fromBlock`/`toBlock`: setting both is an
`InvalidFilterParams` error raised before any network call. -/
def get_event_filter_params (encodeTopic : String → Value → String)
    (selectorTopic : String) (abi : AbiEntry) (address : Option String)
    (argFilters : List (String × Value)) (fromBlock toBlock : Option BlockId)
    (blockHash : Option String) : Except W3Error FilterParams :=
  if blockHash.isSome && (fromBlock.isSome || toBlock.isSome) then
    .error .invalidFilterParams
  else
    .ok { address := address,
          topics := buildTopics encodeTopic selectorTopic abi argFilters,
          fromBlock := fromBlock,
          toBlock := toBlock,
          blockHash := blockHash }

/-- `AsyncContractEvent.get_logs` (source lines 347-419): build the filter
params, issue the single historical-log RPC request, and return the node's
raw entries each decoded through `get_event_data` with the event's ABI entry,
in order.  No node-side filter is installed.  `node` is the transport's
`eth.get_logs`. -/
def AsyncContractEvent.get_logs
    (node : FilterParams → List LogEntry)
    (decodeTopic : String → String → Option Value)
    (decodeData : List String → String → Option (List Value))
    (encodeTopic : String → Value → String) (selectorTopic : String)
    (abi : AbiEntry) (address : Option String)
    (argument_filters : List (String × Value))
    (fromBlock : Option BlockId := none) (toBlock : Option BlockId := none)
    (block_hash : Option String := none) :
    Except W3Error (List EventData) × List Effect :=
  match get_event_filter_params encodeTopic selectorTopic abi address
      argument_filters fromBlock toBlock block_hash with
  | .error e => (.error e, [])
  | .ok params =>
    let logs := node params
    (logs.mapM (get_event_data decodeTopic decodeData abi), [.rpcGetLogs params])

/-- Modelled from the spec: `AsyncEventFilterBuilder` and
`BaseContractEvent._set_up_filter_builder` (in `web3._utils.events` /
`web3.contract.base_contract`) are not in the source tree.  Per section 4.3
the builder assembles address, topics (explicit topics win over
argument-filter-derived ones) and the block range; `create_filter` has no
`blockHash` input at all. -/
def build_filter_params (encodeTopic : String → Value → String)
    (selectorTopic : String) (abi : AbiEntry) (address : Option String)
    (argFilters : List (String × Value)) (fromBlock : Option BlockId)
    (toBlock : BlockId) (topics : Option (List (Option String))) : FilterParams :=
  { address := address,
    topics := match topics with
      | some ts => ts
      | none => buildTopics encodeTopic selectorTopic abi argFilters,
    fromBlock := fromBlock,
    toBlock := some toBlock,
    blockHash := none }

/-- A live filter handle: the node-assigned filter id, the stored log-entry
formatter applied to each subsequently polled raw entry, and the builder
params that created it. -/
structure AsyncLogFilter where
  filter_id : Nat
  log_entry_formatter : LogEntry → Except W3Error EventData
  builder : FilterParams

/-- `AsyncContractEvent.create_filter` (source lines 421-449): set up the
filter builder, register the built params with the node via the
filter-installation RPC method (`installFilter` models the node handing back
a filter id), and return a live filter whose stored `log_entry_formatter` is
`get_event_data` bound to the same event ABI entry. -/
def AsyncContractEvent.create_filter
    (installFilter : FilterParams → Nat)
    (decodeTopic : String → String → Option Value)
    (decodeData : List String → String → Option (List Value))
    (encodeTopic : String → Value → String) (selectorTopic : String)
    (abi : AbiEntry) (address : Option String)
    (argument_filters : List (String × Value))
    (fromBlock : Option BlockId := none) (toBlock : BlockId := BlockId.latest)
    (topics : Option (List (Option String)) := none) :
    AsyncLogFilter × List Effect :=
  let params := build_filter_params encodeTopic selectorTopic abi address
    argument_filters fromBlock toBlock topics
  ({ filter_id := installFilter params,
     log_entry_formatter := get_event_data decodeTopic decodeData abi,
     builder := params },
   [.rpcNewFilter params])

/-- Claim C3: supplying both `blockHash` and a block range to `get_logs`
always fails with `InvalidFilterParams`, and the trace is empty — the
historical-log RPC method is never invoked. -/
theorem get_logs_blockhash_range_exclusive
    (node : FilterParams → List LogEntry)
    (decodeTopic : String → String → Option Value)
    (decodeData : List String → String → Option (List Value))
    (encodeTopic : String → Value → String) (selectorTopic : String)
    (abi : AbiEntry) (address : Option String)
    (argument_filters : List (String × Value))
    (fromBlock toBlock : Option BlockId) (h : String)
    (hrange : fromBlock.isSome || toBlock.isSome) :
    AsyncContractEvent.get_logs node decodeTopic decodeData encodeTopic
        selectorTopic abi address argument_filters fromBlock toBlock (some h)
      = (.error .invalidFilterParams, []) := by
  simp only [AsyncContractEvent.get_logs, get_event_filter_params,
    Option.isSome_some, Bool.true_and, hrange, if_pos]

/-- Witness for C3: `blockHash` together with `fromBlock = 100` fails with
`InvalidFilterParams` and an empty trace. -/
theorem get_logs_blockhash_range_exclusive_witness :
    ((some (BlockId.number 100) : Option BlockId).isSome
        || (none : Option BlockId).isSome) = true
    ∧ AsyncContractEvent.get_logs (fun _ => []) (fun _ _ => none)
        (fun _ _ => none) (fun _ _ => "t") "0xsel" exEntry2 (some "0xA") []
        (some (BlockId.number 100)) none (some "0xblockhash")
      = (.error .invalidFilterParams, []) :=
  ⟨by decide,
   get_logs_blockhash_range_exclusive (fun _ => []) (fun _ _ => none)
     (fun _ _ => none) (fun _ _ => "t") "0xsel" exEntry2 (some "0xA") []
     (some (BlockId.number 100)) none "0xblockhash" (by decide)⟩

/-- Claim C4: whenever the filter params build successfully, `get_logs`
issues exactly one historical-log RPC request, installs no node-side filter,
and returns the node's raw entries decoded through `get_event_data` with the
event's ABI entry, in order. -/
theorem get_logs_single_rpc_and_decodes
    (node : FilterParams → List LogEntry)
    (decodeTopic : String → String → Option Value)
    (decodeData : List String → String → Option (List Value))
    (encodeTopic : String → Value → String) (selectorTopic : String)
    (abi : AbiEntry) (address : Option String)
    (argument_filters : List (String × Value))
    (fromBlock toBlock : Option BlockId) (block_hash : Option String)
    (params : FilterParams)
    (hp : get_event_filter_params encodeTopic selectorTopic abi address
        argument_filters fromBlock toBlock block_hash = .ok params) :
    AsyncContractEvent.get_logs node decodeTopic decodeData encodeTopic
        selectorTopic abi address argument_filters fromBlock toBlock block_hash
      = ((node params).mapM (get_event_data decodeTopic decodeData abi),
         [.rpcGetLogs params])
    ∧ (AsyncContractEvent.get_logs node decodeTopic decodeData encodeTopic
        selectorTopic abi address argument_filters fromBlock toBlock
        block_hash).2.countP Effect.isGetLogs = 1
    ∧ (AsyncContractEvent.get_logs node decodeTopic decodeData encodeTopic
        selectorTopic abi address argument_filters fromBlock toBlock
        block_hash).2.countP Effect.isNewFilter = 0 := by
  refine ⟨?_, ?_, ?_⟩ <;>
    simp [AsyncContractEvent.get_logs, hp, Effect.isGetLogs, Effect.isNewFilter]

/-- The spec's scenario event:
`Transfer(address indexed from, address indexed to, uint256 value)`. -/
def exEvent : AbiEntry :=
  { type := "event", name := "Transfer",
    inputs := [ { name := "from", type := "address", indexed := true },
                { name := "to", type := "address", indexed := true },
                { name := "value", type := "uint256" } ] }

/-- A concrete stand-in for the codec's topic encoder. -/
def exEncodeTopic : String → Value → String :=
  fun ty v => match v with
  | .addr a => "enc:" ++ ty ++ ":" ++ a
  | .int n => "enc:" ++ ty ++ ":" ++ toString n
  | _ => "enc:" ++ ty

/-- A concrete stand-in for the codec's topic decoder. -/
def exDecodeTopic : String → String → Option Value :=
  fun _ t => some (.str t)

/-- A concrete stand-in for the codec's data decoder. -/
def exDecodeData : List String → String → Option (List Value) :=
  fun tys d => some (tys.map (fun ty => .str (ty ++ "/" ++ d)))

/-- One raw log entry matching `exEvent`. -/
def exLog : LogEntry :=
  { address := "0xA",
    topics := ["0xsel", "enc:address:0xB", "enc:address:0xC"],
    data := "0x64", blockNumber := 3, blockHash := "0xbh",
    transactionHash := "0xtx", logIndex := 0 }

/-- A node returning exactly `exLog` for any query. -/
def exNodeLogs : FilterParams → List LogEntry := fun _ => [exLog]

/-- The filter params `get_logs` builds for the scenario query: range
100-110, `from` filtered to one address, `to` a wildcard. -/
def exParams : FilterParams :=
  { address := some "0xA",
    topics := [some "0xsel", some "enc:address:0xB", none],
    fromBlock := some (.number 100), toBlock := some (.number 110) }

/-- Witness for C4 at the spec's scenario: `fromBlock=100, toBlock=110` with
`{from: 0xB}` builds `exParams`, issues exactly the one historical query, and
decodes the returned entry. -/
theorem get_logs_single_rpc_and_decodes_witness :
    get_event_filter_params exEncodeTopic "0xsel" exEvent (some "0xA")
        [("from", .addr "0xB")] (some (.number 100)) (some (.number 110)) none
      = .ok exParams
    ∧ (AsyncContractEvent.get_logs exNodeLogs exDecodeTopic exDecodeData
          exEncodeTopic "0xsel" exEvent (some "0xA") [("from", .addr "0xB")]
          (some (.number 100)) (some (.number 110)) none
        = ((exNodeLogs exParams).mapM
            (get_event_data exDecodeTopic exDecodeData exEvent),
           [.rpcGetLogs exParams])
      ∧ (AsyncContractEvent.get_logs exNodeLogs exDecodeTopic exDecodeData
          exEncodeTopic "0xsel" exEvent (some "0xA") [("from", .addr "0xB")]
          (some (.number 100)) (some (.number 110)) none).2.countP
            Effect.isGetLogs = 1
      ∧ (AsyncContractEvent.get_logs exNodeLogs exDecodeTopic exDecodeData
          exEncodeTopic "0xsel" exEvent (some "0xA") [("from", .addr "0xB")]
          (some (.number 100)) (some (.number 110)) none).2.countP
            Effect.isNewFilter = 0) :=
  ⟨by decide,
   get_logs_single_rpc_and_decodes exNodeLogs exDecodeTopic exDecodeData
     exEncodeTopic "0xsel" exEvent (some "0xA") [("from", .addr "0xB")]
     (some (.number 100)) (some (.number 110)) none exParams (by decide)⟩

/-- Mapping the decoder over a one-entry log list is the decoder applied to
that entry, wrapped as a singleton. -/
theorem mapM_singleton_except (f : LogEntry → Except W3Error EventData)
    (x : LogEntry) : List.mapM f [x] = (f x).map (fun d => [d]) := by
  cases h : f x <;>
    simp [List.mapM, List.mapM.loop, h, Except.map, Except.bind, Except.pure,
      Bind.bind, Pure.pure]

/-- Claim C5: `create_filter` registers the built params with the node and
the returned live filter's stored `log_entry_formatter`, applied to any
subsequently polled raw entry, yields exactly the decoded event `get_logs`
would produce for that entry — both are `get_event_data` bound to the same
event ABI entry. -/
theorem create_filter_formatter_refines_get_logs
    (installFilter : FilterParams → Nat)
    (decodeTopic : String → String → Option Value)
    (decodeData : List String → String → Option (List Value))
    (encodeTopic : String → Value → String) (selectorTopic : String)
    (abi : AbiEntry) (address : Option String)
    (argument_filters : List (String × Value)) (fromBlock : Option BlockId)
    (toBlock : BlockId) (topics : Option (List (Option String)))
    (entry : LogEntry) :
    (AsyncContractEvent.create_filter installFilter decodeTopic decodeData
        encodeTopic selectorTopic abi address argument_filters fromBlock
        toBlock topics).2
      = [.rpcNewFilter (build_filter_params encodeTopic selectorTopic abi
          address argument_filters fromBlock toBlock topics)]
    ∧ (AsyncContractEvent.create_filter installFilter decodeTopic decodeData
        encodeTopic selectorTopic abi address argument_filters fromBlock
        toBlock topics).1.log_entry_formatter entry
      = get_event_data decodeTopic decodeData abi entry
    ∧ (AsyncContractEvent.get_logs (fun _ => [entry]) decodeTopic decodeData
        encodeTopic selectorTopic abi address argument_filters fromBlock
        (some toBlock) none).1
      = (get_event_data decodeTopic decodeData abi entry).map (fun d => [d]) := by
  refine ⟨rfl, rfl, ?_⟩
  simp only [AsyncContractEvent.get_logs, get_event_filter_params,
    Option.isSome_none, Bool.false_and, Bool.false_eq_true, if_false]
  exact mapM_singleton_except _ entry

/-! ## Contract class and handle construction (source lines 93-180) -/

/-- The class-level state the factory binds onto a contract class: node
handle, ABI, class-level address and deployable bytecode. -/
structure ContractClassState where
  w3 : Option Nat
  abi : List AbiEntry := []
  address : Option String := none
  bytecode : Option String := none
deriving DecidableEq

/-- The functions sub-component: the ABI, node and address it is bound to. -/
structure AsyncContractFunctions where
  abi : List AbiEntry
  w3 : Nat
  address : Option String
deriving DecidableEq

/-- The events sub-component: the ABI, node and address it is bound to. -/
structure AsyncContractEvents where
  abi : List AbiEntry
  w3 : Nat
  address : Option String
deriving DecidableEq

/-- The caller facade sub-component, with its fixed default transaction and
block context. -/
structure AsyncContractCaller where
  abi : List AbiEntry
  w3 : Nat
  address : Option String
  transaction : Option TxParams := none
  block_identifier : BlockId := BlockId.latest
deriving DecidableEq

/-- A fully constructed contract handle with its sub-components. -/
structure AsyncContractInstance where
  address : String
  functions : AsyncContractFunctions
  caller : AsyncContractCaller
  events : AsyncContractEvents
deriving DecidableEq

/-- Python truthiness of an optional address string (`if address:` /
`if not self.address:` in the source). -/
def truthyAddr : Option String → Bool
  | none => false
  | some a => !(a == "")

/-- `AsyncContract.__init__` (source lines 100-126): fail if the class holds
no node binding; adopt a supplied (normalized) address, else fall back to the
class-level one; fail if no address results; otherwise build the functions,
caller and events sub-components bound to the ABI, node and address.
`normalize` is the external address normalizer (`normalize_address_no_ens`).
The `fallback`/`receive` accessors built on the base class are outside the
source tree and not modelled. -/
def AsyncContract.init (normalize : String → String) (cls : ContractClassState)
    (address : Option String) : Except W3Error AsyncContractInstance :=
  match cls.w3 with
  | none => .error .notInitialized
  | some w =>
    let selfAddr := if truthyAddr address then address.map normalize
      else cls.address
    match selfAddr with
    | none => .error .missingAddress
    | some a =>
      if a == "" then .error .missingAddress
      else .ok { address := a,
                 functions := { abi := cls.abi, w3 := w, address := some a },
                 caller := { abi := cls.abi, w3 := w, address := some a },
                 events := { abi := cls.abi, w3 := w, address := some a } }

/-- The constructor object: the class's node handle, ABI and bytecode
together with the supplied constructor arguments. -/
structure AsyncContractConstructor where
  w3 : Option Nat
  abi : List AbiEntry
  bytecode : String
  args : List Value
  kwargs : List (String × Value)
deriving DecidableEq

/-- `AsyncContract.constructor` (source lines 167-180): fail with
`NoBytecode` when the class has no deployable bytecode associated with it;
otherwise return a constructor object built from the class's `w3`, ABI,
bytecode and the supplied arguments.  The empty effect trace in both branches
shows that neither encoding nor any network interaction happens here. -/
def AsyncContract.constructor (cls : ContractClassState) (args : List Value)
    (kwargs : List (String × Value)) :
    Except W3Error AsyncContractConstructor × List Effect :=
  match cls.bytecode with
  | none => (.error .noBytecode, [])
  | some bc =>
    (.ok { w3 := cls.w3, abi := cls.abi, bytecode := bc,
           args := args, kwargs := kwargs }, [])

/-- Claim C8: invoking the constructor operation on a class without bytecode
always fails with `NoBytecode` before any encoding or network interaction
(empty trace); with bytecode present it returns the constructor object built
from the class's `w3`, ABI, bytecode and the supplied arguments. -/
theorem constructor_requires_bytecode (cls : ContractClassState)
    (args : List Value) (kwargs : List (String × Value)) :
    (cls.bytecode = none →
      AsyncContract.constructor cls args kwargs = (.error .noBytecode, []))
    ∧ (∀ bc, cls.bytecode = some bc →
      AsyncContract.constructor cls args kwargs
        = (.ok { w3 := cls.w3, abi := cls.abi, bytecode := bc,
                 args := args, kwargs := kwargs }, [])) := by
  constructor
  · intro h
    simp [AsyncContract.constructor, h]
  · intro bc h
    simp [AsyncContract.constructor, h]

/-- A contract class with bytecode bound. -/
def exCls : ContractClassState :=
  { w3 := some 1, abi := exAbi, address := some "0xA",
    bytecode := some "0x6080" }

/-- A contract class without bytecode. -/
def exClsNoCode : ContractClassState :=
  { w3 := some 1, abi := exAbi, address := some "0xA" }

/-- Witness for C8: the bytecode-less class fails with `NoBytecode` and an
empty trace; the class with bytecode yields the constructor object. -/
theorem constructor_requires_bytecode_witness :
    (AsyncContract.constructor exClsNoCode [.int 5] []
      = (.error .noBytecode, []))
    ∧ (AsyncContract.constructor exCls [.int 5] []
      = (.ok { w3 := some 1, abi := exAbi, bytecode := "0x6080",
               args := [.int 5], kwargs := [] }, [])) :=
  ⟨(constructor_requires_bytecode exClsNoCode [.int 5] []).1 rfl,
   (constructor_requires_bytecode exCls [.int 5] []).2 "0x6080" rfl⟩

/-- Claim C9: constructing a contract handle on a class without a node
binding fails with `NotInitialized`, and constructing one with no address
supplied and none bound on the class fails with `MissingAddress`; in both
cases no instance — and so no functions/caller/events sub-component — is
created. -/
theorem init_requires_node_and_address (normalize : String → String)
    (cls : ContractClassState) (address : Option String) :
    (cls.w3 = none →
      AsyncContract.init normalize cls address = .error .notInitialized)
    ∧ (∀ w, cls.w3 = some w → address = none → cls.address = none →
      AsyncContract.init normalize cls address = .error .missingAddress) := by
  constructor
  · intro h
    simp [AsyncContract.init, h]
  · intro w hw h1 h2
    simp [AsyncContract.init, hw, h1, h2, truthyAddr]

/-- A contract class with a node but no address anywhere. -/
def exClsNoAddr : ContractClassState := { w3 := some 1, abi := exAbi }

/-- A contract class with no node binding. -/
def exClsNoW3 : ContractClassState :=
  { w3 := none, abi := exAbi, address := some "0xA" }

/-- Witness for C9: the node-less class fails with `NotInitialized`; the
address-less class with no address supplied fails with `MissingAddress`. -/
theorem init_requires_node_and_address_witness :
    (AsyncContract.init id exClsNoW3 (some "0xA") = .error .notInitialized)
    ∧ (AsyncContract.init id exClsNoAddr none = .error .missingAddress) :=
  ⟨(init_requires_node_and_address id exClsNoW3 (some "0xA")).1 rfl,
   (init_requires_node_and_address id exClsNoAddr none).2 1 rfl rfl rfl⟩
